import Mathlib

/-!
# Verification of the password-strength-analyzer core engines

Shallow embedding of the two algorithmic engines of the repository:
`pssw_analyzer.py` (`PasswordAnalyzer`) and `pssw_wordlist.py`
(`WordlistGenerator`), configured by `pssw_config.py` (`Config`).

Modelling conventions:
* Python strings are `String` (a list of characters); the inputs of interest
  are ASCII, so `Char.toLower`/`Char.toUpper` model `str.lower()`/`str.upper()`
  and explicit ASCII class tests model the regexes `[a-z]`, `[A-Z]`, `\d`,
  `[!@#$%^&*(),.?":{}|<>]` of the source.
* Python floats are modelled exactly where the computation stays rational
  (scores, diversity ratios) and by real numbers where it does not
  (`math.log2`, `2 ** entropy`).  `round(x, 2)` is modelled as rounding to the
  nearest multiple of `1/100` (the value of a Python float is a rational, so
  the result is a rational); `round(x)` on the score is modelled by
  round-half-to-even, Python's tie rule.
* CPython's `2.0 ** e` raises `OverflowError` when the mathematical result
  exceeds the largest finite IEEE-754 double; that threshold is `2 ^ 1024`,
  i.e. the power overflows exactly when `1024 ≤ e`.  `analyze_password` is
  therefore `Except`-valued: `.error "OverflowError"` models the uncaught
  exception escaping `_estimate_crack_time`.
* `datetime.now()` is an effect; it is threaded as an explicit argument
  (`now` for the timestamp string, `current_year` for the year table).
* Python `set`s are modelled as lists deduplicated with `List.dedup`
  (first-occurrence order); the spec itself (§9) notes that the set iteration
  order of the original is unspecified.
-/

/-! ## Character classes (regexes of `pssw_analyzer.py` / `Config`) -/

/-- The regex class `[a-z]`. -/
def isLowerAZ (c : Char) : Bool := 'a' ≤ c && c ≤ 'z'

/-- The regex class `[A-Z]`. -/
def isUpperAZ (c : Char) : Bool := 'A' ≤ c && c ≤ 'Z'

/-- The regex class `\d` (ASCII digits). -/
def isDigit09 (c : Char) : Bool := '0' ≤ c && c ≤ '9'

/-- The fixed punctuation class `[!@#$%^&*(),.?":{}|<>]` of the source. -/
def specialChars : List Char :=
  ['!', '@', '#', '$', '%', '^', '&', '*', '(', ')', ',', '.', '?', '\"',
   ':', '\x7b', '\x7d', '|', '<', '>']

/-- Membership in the special-character class. -/
def isSpecialChar (c : Char) : Bool := specialChars.contains c

/-- Python `s.lower()` (ASCII). -/
def pyLower (s : String) : String := String.mk (s.data.map Char.toLower)

/-- Python `s.upper()` (ASCII). -/
def pyUpper (s : String) : String := String.mk (s.data.map Char.toUpper)

/-- Python `s.capitalize()`: first character uppercased, the rest lowercased. -/
def pyCapitalize (s : String) : String :=
  match s.data with
  | [] => ""
  | c :: cs => String.mk (Char.toUpper c :: cs.map Char.toLower)

/-- Python `needle in hay` on strings, as a scan over character lists. -/
def substrAt (needle hay : List Char) : Bool :=
  needle.isPrefixOf hay ||
    match hay with
    | [] => false
    | _ :: t => substrAt needle t

/-- Python `needle in hay` for `String`s. -/
def pyContains (hay needle : String) : Bool := substrAt needle.data hay.data

/-! ## `PasswordAnalyzer._analyze_characters` -/

/-- The dictionary built by `_analyze_characters`. -/
structure CharAnalysis where
  has_lowercase : Bool
  has_uppercase : Bool
  has_digits : Bool
  has_special : Bool
  lowercase_count : ℕ
  uppercase_count : ℕ
  digit_count : ℕ
  special_count : ℕ
  unique_chars : ℕ
  char_diversity : ℚ
  character_types : ℕ
  deriving DecidableEq, Repr

/-- `PasswordAnalyzer._analyze_characters`. -/
def analyze_characters (password : String) : CharAnalysis :=
  let hasL := password.data.any isLowerAZ
  let hasU := password.data.any isUpperAZ
  let hasD := password.data.any isDigit09
  let hasS := password.data.any isSpecialChar
  { has_lowercase := hasL
    has_uppercase := hasU
    has_digits := hasD
    has_special := hasS
    lowercase_count := (password.data.filter isLowerAZ).length
    uppercase_count := (password.data.filter isUpperAZ).length
    digit_count := (password.data.filter isDigit09).length
    special_count := (password.data.filter isSpecialChar).length
    unique_chars := password.data.dedup.length
    char_diversity :=
      if password = "" then 0
      else (password.data.dedup.length : ℚ) / (password.length : ℚ)
    character_types :=
      (cond hasL 1 0) + (cond hasU 1 0) + (cond hasD 1 0) + (cond hasS 1 0) }

/-! ## `PasswordAnalyzer` pattern checks and `Config` tables -/

/-- `Config.COMMON_PATTERNS`. -/
def COMMON_PATTERNS : List String :=
  ["password", "123456", "qwerty", "abc123", "letmein",
   "admin", "welcome", "monkey", "dragon", "master"]

/-- `Config.LEET_REPLACEMENTS` (dict insertion order; each replacement is a
single character in the source). -/
def LEET_REPLACEMENTS : List (Char × List Char) :=
  [('a', ['@', '4']), ('e', ['3']), ('i', ['1', '!']), ('o', ['0']),
   ('s', ['$', '5']), ('t', ['7']), ('l', ['1']), ('g', ['9'])]

/-- `PasswordAnalyzer._check_common_patterns`. -/
def check_common_patterns (password : String) : List String :=
  COMMON_PATTERNS.filter fun pat => pyContains (pyLower password) pat

/-- The fixed keyboard-row list of `_check_keyboard_patterns`. -/
def keyboardPatterns : List String :=
  ["qwerty", "asdf", "zxcv", "1234", "4567", "7890",
   "qwertyuiop", "asdfghjkl", "zxcvbnm"]

/-- `PasswordAnalyzer._check_keyboard_patterns`: each pattern is searched in
forward and reversed orientation in the lowercased password. -/
def check_keyboard_patterns (password : String) : List String :=
  keyboardPatterns.filter fun pat =>
    pyContains (pyLower password) pat ||
      pyContains (pyLower password) (String.mk pat.data.reverse)

/-- `PasswordAnalyzer._check_repeated_characters`: scan with a cursor; on a
triple of identical characters record it and advance by 3, else advance by 1. -/
def check_repeated_characters : List Char → List String
  | a :: b :: c :: rest =>
    if a = b ∧ b = c then String.mk [a, a, a] :: check_repeated_characters rest
    else check_repeated_characters (b :: c :: rest)
  | _ => []

/-- All windows of three consecutive characters. -/
def windows3 : List Char → List (Char × Char × Char)
  | a :: b :: c :: rest => (a, b, c) :: windows3 (b :: c :: rest)
  | _ => []

/-- `PasswordAnalyzer._check_sequential_characters`: first all numeric
windows which ascend by 1, then all alphabetic windows which ascend by 1
(case-insensitively); each window appends the original-case substring. -/
def check_sequential_characters (l : List Char) : List String :=
  ((windows3 l).filter fun w =>
      isDigit09 w.1 && isDigit09 w.2.1 && isDigit09 w.2.2 &&
        (w.2.1.toNat == w.1.toNat + 1) && (w.2.2.toNat == w.2.1.toNat + 1)).map
    (fun w => String.mk [w.1, w.2.1, w.2.2]) ++
  ((windows3 l).filter fun w =>
      w.1.toLower.isAlpha && w.2.1.toLower.isAlpha && w.2.2.toLower.isAlpha &&
        (w.2.1.toLower.toNat == w.1.toLower.toNat + 1) &&
        (w.2.2.toLower.toNat == w.2.1.toLower.toNat + 1)).map
    (fun w => String.mk [w.1, w.2.1, w.2.2])

/-- `PasswordAnalyzer._check_leet_speak`: record `"r -> c"` for every
configured substitute `r` of letter `c` that occurs in the password. -/
def check_leet_speak (password : String) : List String :=
  LEET_REPLACEMENTS.flatMap fun p =>
    (p.2.filter fun r => password.data.contains r).map fun r =>
      String.mk [r] ++ " -> " ++ String.mk [p.1]

/-- The fixed list of `_check_dictionary_words`. -/
def commonWords : List String :=
  ["password", "admin", "user", "login", "welcome",
   "secret", "master", "super", "root", "test"]

/-- `PasswordAnalyzer._check_dictionary_words`. -/
def check_dictionary_words (password : String) : List String :=
  commonWords.filter fun w => pyContains (pyLower password) w

/-- The dictionary built by `_analyze_patterns`. -/
structure PatternAnalysis where
  has_common_patterns : List String
  has_keyboard_patterns : List String
  has_repeated_chars : List String
  has_sequential_chars : List String
  common_substitutions : List String
  contains_dictionary_words : List String
  deriving DecidableEq, Repr

/-- `PasswordAnalyzer._analyze_patterns`. -/
def analyze_patterns (password : String) : PatternAnalysis :=
  { has_common_patterns := check_common_patterns password
    has_keyboard_patterns := check_keyboard_patterns password
    has_repeated_chars := check_repeated_characters password.data
    has_sequential_chars := check_sequential_characters password.data
    common_substitutions := check_leet_speak password
    contains_dictionary_words := check_dictionary_words password }

example : check_repeated_characters "aaa111".data = ["aaa", "111"] := by decide
example : check_sequential_characters "aaa111".data = [] := by decide
example : check_sequential_characters "abc123".data = ["123", "abc"] := by decide
example : check_common_patterns "Password123!" = ["password"] := by decide
example : (analyze_characters "Password123!").character_types = 4 := by decide

/-! ## Entropy and scoring (`_calculate_entropy`, `_calculate_strength_score`) -/

/-- Charset size summed over the classes present, as in `_calculate_entropy`:
lower 26, upper 26, digits 10, special 32. -/
def charset_size (password : String) : ℕ :=
  (if password.data.any isLowerAZ then 26 else 0) +
  (if password.data.any isUpperAZ then 26 else 0) +
  (if password.data.any isDigit09 then 10 else 0) +
  (if password.data.any isSpecialChar then 32 else 0)

/-- Python `round(x, 2)`: the nearest multiple of `1/100` (the value of a
float is rational, so the result is rational).  Mathlib's `round` breaks ties
upward while Python breaks them to even; the entropy values this is applied
to are irrational multiples of logarithms or `0`, so no tie arises. -/
noncomputable def round2 (x : ℝ) : ℚ := (round (100 * x) : ℚ) / 100

/-- `PasswordAnalyzer._calculate_entropy`: `0` for the empty password,
otherwise `round(len * log2(charset_size), 2)` with `0` when no class is
present. -/
noncomputable def calculate_entropy (password : String) : ℚ :=
  if password = "" then 0
  else
    round2 (if 0 < charset_size password then
              (password.length : ℝ) * Real.logb 2 (charset_size password)
            else 0)

/-- Python `round(x)` on a float value: round half to even, returning an
integer. -/
def pythonRound (q : ℚ) : ℤ :=
  let f := ⌊q⌋
  let r := q - f
  if r < 1 / 2 then f
  else if 1 / 2 < r then f + 1
  else if f % 2 = 0 then f else f + 1

/-- `PasswordAnalyzer._calculate_strength_score`: additive score (length
tier, `character_types * 6.25`, `char_diversity * 15`, entropy bonus, pattern
penalties), rounded to the nearest integer and clamped to `[0, 100]`. -/
def calculate_strength_score (password : String) (ca : CharAnalysis)
    (pa : PatternAnalysis) (entropy : ℚ) : ℤ :=
  let length_score : ℚ :=
    if 12 ≤ password.length then 30
    else if 8 ≤ password.length then 20
    else if 6 ≤ password.length then 10
    else if 4 ≤ password.length then 5
    else 0
  let type_score : ℚ := (ca.character_types : ℚ) * (625 / 100)
  let diversity_score : ℚ := ca.char_diversity * 15
  let entropy_bonus : ℚ :=
    if 60 ≤ entropy then 20
    else if 40 ≤ entropy then 15
    else if 25 ≤ entropy then 10
    else if 15 ≤ entropy then 5
    else 0
  let common_penalty : ℚ := if pa.has_common_patterns ≠ [] then 10 else 0
  let keyboard_penalty : ℚ := if pa.has_keyboard_patterns ≠ [] then 5 else 0
  let repeat_penalty : ℚ := if pa.has_repeated_chars ≠ [] then 5 else 0
  let sequential_penalty : ℚ := if pa.has_sequential_chars ≠ [] then 5 else 0
  max 0 (min 100 (pythonRound
    (length_score + type_score + diversity_score + entropy_bonus -
      common_penalty - keyboard_penalty - repeat_penalty - sequential_penalty)))

/-- `PasswordAnalyzer._get_strength_label`. -/
def get_strength_label (score : ℤ) : String × String :=
  if 80 ≤ score then ("Very Strong", "success")
  else if 60 ≤ score then ("Strong", "info")
  else if 40 ≤ score then ("Moderate", "warning")
  else if 20 ≤ score then ("Weak", "danger")
  else ("Very Weak", "danger")

/-! ## Crack-time estimate (`_estimate_crack_time`) -/

/-- `PasswordAnalyzer._estimate_crack_time`.  `seconds = 2 ** entropy /
(2 * 1e9)`; the displayed unit counts use `int(...)`, i.e. truncation, which
equals the floor for the nonnegative values reached in each branch.  CPython's
float power raises `OverflowError` when the result exceeds the largest double,
i.e. exactly when `1024 ≤ entropy`; the uncaught exception is the `.error`
case. -/
noncomputable def estimate_crack_time (entropy : ℚ) : Except String String :=
  if entropy ≤ 0 then .ok "Instantly"
  else if 1024 ≤ entropy then .error "OverflowError"
  else
    let seconds : ℝ := (2 : ℝ) ^ (entropy : ℝ) / (2 * 1000000000)
    if seconds < 1 then .ok "Less than a second"
    else if seconds < 60 then .ok (toString ⌊seconds⌋ ++ " seconds")
    else if seconds < 3600 then .ok (toString ⌊seconds / 60⌋ ++ " minutes")
    else if seconds < 86400 then .ok (toString ⌊seconds / 3600⌋ ++ " hours")
    else if seconds < 2592000 then .ok (toString ⌊seconds / 86400⌋ ++ " days")
    else if seconds < 31536000 then
      .ok (toString ⌊seconds / 2592000⌋ ++ " months")
    else
      let years : ℤ := ⌊seconds / 31536000⌋
      if 1000000 < years then .ok "Millions of years"
      else .ok (toString years ++ " years")

/-! ## Recommendations (`_generate_recommendations`) -/

/-- The three fixed general-hardening tips appended when the score is
below 60. -/
def generalTips : List String :=
  ["Consider using a passphrase instead of a password",
   "Use a password manager to generate strong passwords",
   "Enable two-factor authentication where possible"]

/-- `PasswordAnalyzer._generate_recommendations`: the ordered rule list of the
source, each appending zero or one message, then the general tips when the
score is below 60, truncated to the first 8 messages. -/
def generate_recommendations (length : ℕ) (ca : CharAnalysis)
    (pa : PatternAnalysis) (score : ℤ) : List String :=
  let recommendations :=
    (if length < 8 then ["Use at least 8 characters (12+ recommended)"]
     else if length < 12 then
       ["Consider using 12 or more characters for better security"]
     else []) ++
    (if ca.has_lowercase = false then ["Add lowercase letters"] else []) ++
    (if ca.has_uppercase = false then ["Add uppercase letters"] else []) ++
    (if ca.has_digits = false then ["Add numbers"] else []) ++
    (if ca.has_special = false then ["Add special characters (!@#$%^&*)"]
     else []) ++
    (if pa.has_common_patterns ≠ [] then ["Avoid common password patterns"]
     else []) ++
    (if pa.has_keyboard_patterns ≠ [] then
       ["Avoid keyboard patterns (qwerty, 123456, etc.)"] else []) ++
    (if pa.has_repeated_chars ≠ [] then
       ["Avoid repeated characters (aaa, 111)"] else []) ++
    (if pa.has_sequential_chars ≠ [] then
       ["Avoid sequential characters (abc, 123)"] else []) ++
    (if pa.contains_dictionary_words ≠ [] then
       ["Avoid common dictionary words"] else []) ++
    (if ca.char_diversity < 7 / 10 then ["Use more unique characters"]
     else []) ++
    (if score < 60 then generalTips else [])
  recommendations.take 8

/-! ## The analysis record and `analyze_password` -/

/-- The analysis dictionary returned by `analyze_password`.  The
`zxcvbn_analysis` key is environment-dependent (the library is absent here,
`ZXCVBN_AVAILABLE = False`) and always `None`; it is omitted.  The
`character_analysis`/`pattern_analysis` keys hold empty dictionaries in the
empty-password record, hence the `Option`. -/
structure Analysis where
  password : String
  length : ℕ
  strength_score : ℤ
  strength_label : String
  strength_color : String
  entropy : ℚ
  time_to_crack : String
  character_analysis : Option CharAnalysis
  pattern_analysis : Option PatternAnalysis
  recommendations : List String
  analysis_timestamp : String
  deriving DecidableEq, Repr

/-- `PasswordAnalyzer._empty_analysis` (the timestamp is the `datetime.now()`
reading, threaded as the argument `now`). -/
def empty_analysis (now : String) : Analysis :=
  { password := ""
    length := 0
    strength_score := 0
    strength_label := "Invalid"
    strength_color := "secondary"
    entropy := 0
    time_to_crack := "N/A"
    character_analysis := none
    pattern_analysis := none
    recommendations := ["Please enter a password to analyze"]
    analysis_timestamp := now }

/-- `PasswordAnalyzer.analyze_password`.  `now` is the `datetime.now()`
reading.  The `OverflowError` that `_estimate_crack_time` raises for huge
entropies aborts the whole call, hence the `Except`. -/
noncomputable def analyze_password (now password : String) :
    Except String Analysis :=
  if password = "" then .ok (empty_analysis now)
  else
    let ca := analyze_characters password
    let pa := analyze_patterns password
    let entropy := calculate_entropy password
    let score := calculate_strength_score password ca pa entropy
    let labelColor := get_strength_label score
    match estimate_crack_time entropy with
    | .error e => .error e
    | .ok crackTime =>
      .ok { password := password
            length := password.length
            strength_score := score
            strength_label := labelColor.1
            strength_color := labelColor.2
            entropy := entropy
            time_to_crack := crackTime
            character_analysis := some ca
            pattern_analysis := some pa
            recommendations :=
              generate_recommendations password.length ca pa score
            analysis_timestamp := now }

/-! ## `WordlistGenerator` (`pssw_wordlist.py`) -/

/-- Python whitespace (`\s` over ASCII): space, tab, newline, carriage
return, vertical tab, form feed. -/
def pyWS (c : Char) : Bool :=
  c = ' ' || c = '\t' || c = '\n' || c = '\r' || c = '\x0b' || c = '\x0c'

/-- Python `s.strip()`. -/
def pyStrip (s : String) : String :=
  String.mk (((s.data.dropWhile pyWS).reverse.dropWhile pyWS).reverse)

/-- Python `s.isspace()`: nonempty and all whitespace. -/
def pyIsSpace (s : String) : Bool := !s.data.isEmpty && s.data.all pyWS

/-- The separator class `[,;\s\n\t]` of `_clean_inputs`. -/
def sepChar (c : Char) : Bool := c = ',' || c = ';' || pyWS c

/-- `WordlistGenerator._clean_inputs`: strip each input, split it on runs of
separators, keep the tokens of length at least 2, deduplicate.  (`re.split`
with a `+`-quantified class can emit empty tokens at the edges; those are
removed by the length filter, so splitting at every separator is
equivalent.  Tokens contain no whitespace, so the per-token `strip()` of the
source is the identity.) -/
def clean_inputs (user_inputs : List String) : List String :=
  (user_inputs.flatMap fun s =>
    (((pyStrip s).data.splitOnP sepChar).map String.mk).filter fun w =>
      2 ≤ w.length).dedup

/-- Vowels removed by the vowel-stripping variation. -/
def isVowel (c : Char) : Bool :=
  c = 'a' || c = 'e' || c = 'i' || c = 'o' || c = 'u' ||
  c = 'A' || c = 'E' || c = 'I' || c = 'O' || c = 'U'

/-- `WordlistGenerator._generate_variations`: reversal; for words of length
at least 3 two mixed-case forms; the vowel-stripped form when nonempty and
different; self-concatenation for words of length at most 6; and, for words
containing a space, the abbreviation from the first letters of the
sub-words (as-is and uppercased) when it has length at least 2. -/
def generate_variations (words : List String) : List String :=
  words.flatMap fun w =>
    [String.mk w.data.reverse] ++
    (if 3 ≤ w.length then
       match w.data with
       | c :: rest =>
         [String.mk (c :: rest.map Char.toUpper),
          String.mk (Char.toUpper c :: rest)]
       | [] => []
     else []) ++
    (let noVowels := String.mk (w.data.filter fun c => !isVowel c)
     if noVowels ≠ "" ∧ noVowels ≠ w then [noVowels] else []) ++
    (if w.length ≤ 6 then [w ++ w] else []) ++
    (if w.data.contains ' ' then
       let abbreviation :=
         String.mk ((w.data.splitOnP pyWS).filterMap List.head?)
       if 2 ≤ abbreviation.length then [abbreviation, pyUpper abbreviation]
       else []
     else [])

/-- Python `s.replace(old, new)` for single characters. -/
def replaceAll (old new : Char) (l : List Char) : List Char :=
  l.map fun c => if c = old then new else c

/-- Python `s.replace(old, new, 1)` for single characters. -/
def replaceFirst (old new : Char) : List Char → List Char
  | [] => []
  | c :: cs => if c = old then new :: cs else c :: replaceFirst old new cs

/-- The full leet form of `_generate_leet_variations`: fold every
`(letter, substitute)` pair over the word, replacing all occurrences of the
lowercase and then the uppercase letter. -/
def fullLeet (w : String) : String :=
  String.mk (LEET_REPLACEMENTS.foldl
    (fun acc p => p.2.foldl
      (fun acc2 r => replaceAll p.1.toUpper r (replaceAll p.1 r acc2)) acc)
    w.data)

/-- `WordlistGenerator._generate_leet_variations`: for each word, the full
leet form when it differs, then for every `(letter, substitute)` pair the
partial form replacing only the first occurrence, when it differs. -/
def generate_leet_variations (words : List String) : List String :=
  words.flatMap fun w =>
    (if fullLeet w ≠ w then [fullLeet w] else []) ++
    LEET_REPLACEMENTS.flatMap fun p =>
      p.2.filterMap fun r =>
        let partial_leet := String.mk (replaceFirst p.1 r w.data)
        if partial_leet ≠ w then some partial_leet else none

/-- Python `str(y)[-2:]`. -/
def last2 (s : String) : String := String.mk (s.data.drop (s.data.length - 2))

/-- The year table of `_add_year_combinations`: current year, previous year,
next year, the 2-digit forms of the current and previous year, then the
fixed historical years. -/
def yearStrings (current_year : ℤ) : List String :=
  [toString current_year, toString (current_year - 1),
   toString (current_year + 1),
   last2 (toString current_year), last2 (toString (current_year - 1)),
   "2023", "2024", "2025", "23", "24", "25",
   "1990", "1995", "2000", "2010", "90", "95", "00", "10"]

/-- `WordlistGenerator._add_year_combinations`: `word+year`, `year+word`,
`word_year`, `word-year` for every word and year. -/
def add_year_combinations (current_year : ℤ) (words : List String) :
    List String :=
  words.flatMap fun w =>
    (yearStrings current_year).flatMap fun y =>
      [w ++ y, y ++ w, w ++ "_" ++ y, w ++ "-" ++ y]

/-- The fixed suffixes of `_add_common_combinations`. -/
def commonSuffixes : List String :=
  ["1", "12", "123", "1234", "!", "!!", "?", "@", "#", "01", "001"]

/-- The fixed prefix strings of `_add_common_combinations`. -/
def commonPrefixStrings : List String := ["1", "12", "@", "#"]

/-- `WordlistGenerator._add_common_combinations`. -/
def add_common_combinations (words : List String) : List String :=
  words.flatMap fun w =>
    commonSuffixes.map (fun s => w ++ s) ++
    commonPrefixStrings.map (fun p => p ++ w)

/-- The common weak words of `_add_common_patterns`. -/
def commonAdditions : List String :=
  ["password", "admin", "user", "login", "secure"]

/-- `WordlistGenerator._add_common_patterns`. -/
def add_common_patterns (words : List String) : List String :=
  words.flatMap fun w =>
    [w ++ "123", w ++ "456", w ++ "789", w ++ "!@#", w ++ "***",
     "***" ++ w, pyCapitalize w ++ "1", pyCapitalize w ++ "!"] ++
    (commonAdditions.filter fun a => pyLower w ≠ a).flatMap fun a =>
      [w ++ a, a ++ w]

/-- `Config.MAX_WORDLIST_SIZE`. -/
def MAX_WORDLIST_SIZE : ℕ := 10000

/-- The per-word filter of `_filter_wordlist`: length in `[2, 50]`, no
leading or trailing whitespace, not entirely whitespace. -/
def okWord (w : String) : Bool :=
  decide (2 ≤ w.length) && decide (w.length ≤ 50) &&
    (pyStrip w == w) && !pyIsSpace w

/-- `WordlistGenerator._filter_wordlist`: keep the words passing `okWord`,
deduplicate, truncate to `MAX_WORDLIST_SIZE`. -/
def filter_wordlist (wordlist : List String) : List String :=
  ((wordlist.filter okWord).dedup).take MAX_WORDLIST_SIZE

/-- Code-point lexicographic comparison of character lists, the order of
Python's `sorted` on strings. -/
def lexLe : List Char → List Char → Bool
  | [], _ => true
  | _ :: _, [] => false
  | a :: as, b :: bs =>
    if a.toNat < b.toNat then true
    else if b.toNat < a.toNat then false
    else lexLe as bs

/-- The order used by Python's `sorted` on strings. -/
def pyle (a b : String) : Prop := lexLe a.data b.data = true

instance : DecidableRel pyle := fun a b => by unfold pyle; infer_instance

/-- The collection accumulated by `generate_wordlist` before filtering: base
forms (always), variations, leet forms of the snapshot so far, year
combinations, common affixes (always), common patterns. -/
def accumulated_wordlist (current_year : ℤ) (cleaned_inputs : List String)
    (include_years include_leet include_common include_variations : Bool) :
    List String :=
  let base := cleaned_inputs.flatMap fun w =>
    [w, pyLower w, pyUpper w, pyCapitalize w]
  let wl1 := if include_variations then
    base ++ generate_variations cleaned_inputs else base
  let wl2 := if include_leet then wl1 ++ generate_leet_variations wl1
    else wl1
  let wl3 := if include_years then
    wl2 ++ add_year_combinations current_year cleaned_inputs else wl2
  let wl4 := wl3 ++ add_common_combinations cleaned_inputs
  if include_common then wl4 ++ add_common_patterns cleaned_inputs else wl4

/-- `WordlistGenerator.generate_wordlist`.  `current_year` is the
`datetime.now().year` reading.  An empty cleaned seed set returns the empty
list; otherwise the accumulated collection is filtered, bounded, and
sorted. -/
def generate_wordlist (current_year : ℤ) (user_inputs : List String)
    (include_years include_leet include_common include_variations : Bool) :
    List String :=
  let cleaned_inputs := clean_inputs user_inputs
  if cleaned_inputs = [] then []
  else
    (filter_wordlist (accumulated_wordlist current_year cleaned_inputs
      include_years include_leet include_common include_variations)).insertionSort
      pyle

/-! ## Order lemmas for the sorting relation -/

theorem lexLe_total : ∀ a b : List Char, lexLe a b = true ∨ lexLe b a = true
  | [], _ => Or.inl rfl
  | _ :: _, [] => Or.inr rfl
  | a :: as, b :: bs => by
    rcases Nat.lt_trichotomy a.toNat b.toNat with h | h | h
    · left; simp [lexLe, h]
    · have h1 : ¬a.toNat < b.toNat := by omega
      have h2 : ¬b.toNat < a.toNat := by omega
      rcases lexLe_total as bs with ih | ih
      · left; simp [lexLe, h1, h2, ih]
      · right; simp [lexLe, h1, h2, ih]
    · right; simp [lexLe, h]

theorem lexLe_trans : ∀ a b c : List Char,
    lexLe a b = true → lexLe b c = true → lexLe a c = true
  | [], _, _ => by intros; rfl
  | _ :: _, [], _ => by simp [lexLe]
  | _ :: _, _ :: _, [] => by simp [lexLe]
  | a :: as, b :: bs, c :: cs => by
    simp only [lexLe]
    intro hab hbc
    split_ifs at hab hbc ⊢ with h1 h2 h3 h4 h5 h6
    all_goals try rfl
    all_goals try (exact lexLe_trans as bs cs hab hbc)
    all_goals try (exfalso; omega)

instance : IsTotal String pyle := ⟨fun a b => lexLe_total a.data b.data⟩

instance : IsTrans String pyle :=
  ⟨fun a b c hab hbc => lexLe_trans a.data b.data c.data hab hbc⟩

/-! ## Spec-side definitions (stated from the claims, for comparison) -/

/-- The crack-time bucketing exactly as the claim states it: `seconds =
2^e / (2 * 10^9)`; `Instantly` for nonpositive entropy; then the bucket
chain with truncated unit counts; `Millions of years` above a million
years.  (No overflow case: the claim describes a total bucketing.) -/
noncomputable def claimed_crack_time (entropy : ℚ) : String :=
  if entropy ≤ 0 then "Instantly"
  else
    let seconds : ℝ := (2 : ℝ) ^ (entropy : ℝ) / (2 * 1000000000)
    if seconds < 1 then "Less than a second"
    else if seconds < 60 then toString ⌊seconds⌋ ++ " seconds"
    else if seconds < 3600 then toString ⌊seconds / 60⌋ ++ " minutes"
    else if seconds < 86400 then toString ⌊seconds / 3600⌋ ++ " hours"
    else if seconds < 2592000 then toString ⌊seconds / 86400⌋ ++ " days"
    else if seconds < 31536000 then toString ⌊seconds / 2592000⌋ ++ " months"
    else if 1000000 < ⌊seconds / 31536000⌋ then "Millions of years"
    else toString ⌊seconds / 31536000⌋ ++ " years"

/-- The recommendation rules in the fixed order the claim states: length
rules, missing character classes, pattern findings, dictionary words,
diversity below 0.7; each rule contributes zero or one message. -/
def recommendationRules (length : ℕ) (ca : CharAnalysis)
    (pa : PatternAnalysis) : List (List String) :=
  [(if length < 8 then ["Use at least 8 characters (12+ recommended)"]
    else if length < 12 then
      ["Consider using 12 or more characters for better security"]
    else []),
   (if ca.has_lowercase = false then ["Add lowercase letters"] else []),
   (if ca.has_uppercase = false then ["Add uppercase letters"] else []),
   (if ca.has_digits = false then ["Add numbers"] else []),
   (if ca.has_special = false then ["Add special characters (!@#$%^&*)"]
    else []),
   (if pa.has_common_patterns ≠ [] then ["Avoid common password patterns"]
    else []),
   (if pa.has_keyboard_patterns ≠ [] then
      ["Avoid keyboard patterns (qwerty, 123456, etc.)"] else []),
   (if pa.has_repeated_chars ≠ [] then
      ["Avoid repeated characters (aaa, 111)"] else []),
   (if pa.has_sequential_chars ≠ [] then
      ["Avoid sequential characters (abc, 123)"] else []),
   (if pa.contains_dictionary_words ≠ [] then
      ["Avoid common dictionary words"] else []),
   (if ca.char_diversity < 7 / 10 then ["Use more unique characters"]
    else [])]

/-- The analysis record with its `datetime.now()` timestamp blanked, to
compare analyses taken at different times. -/
def erase_timestamp (a : Analysis) : Analysis :=
  { a with analysis_timestamp := "" }

/-! ## Claim theorems -/

/-- C7: on the password `"aaa111"` the repeated-character scan reports
`"aaa"` (and then `"111"`, the scan cursor having skipped past the consumed
triple without reporting overlapping repeats inside it), and the
sequential-character scan does not flag `"111"` (step-0 runs are not
sequential; in fact it flags nothing in this password). -/
theorem aaa111_patterns :
    "aaa" ∈ check_repeated_characters "aaa111".data ∧
    check_repeated_characters "aaa111".data = ["aaa", "111"] ∧
    "111" ∉ check_sequential_characters "aaa111".data := by
  refine ⟨?_, by decide, by decide⟩
  decide

/-- C4: the empty password short-circuits to the fixed Invalid record:
score 0, label `"Invalid"`, exactly one recommendation — an `.ok` result,
not an error. -/
theorem empty_password_invalid (now : String) :
    analyze_password now "" = .ok (empty_analysis now) ∧
    (empty_analysis now).strength_score = 0 ∧
    (empty_analysis now).strength_label = "Invalid" ∧
    (empty_analysis now).recommendations.length = 1 := by
  refine ⟨?_, rfl, rfl, rfl⟩
  simp [analyze_password]

/-- A rule contributes at most one message. -/
theorem ite_rule_length_le_one (c : Prop) [Decidable c] (m : String)
    (l : List String) (h : l.length ≤ 1) : (if c then [m] else l).length ≤ 1 := by
  split_ifs <;> simp_all

/-- C8: the recommendation list is the fixed rule list evaluated
top-to-bottom (each rule appending zero or one message), with the three
general-hardening tips appended when the score is below 60, truncated to the
first 8 messages in generation order. -/
theorem recommendations_follow_rules (length : ℕ) (ca : CharAnalysis)
    (pa : PatternAnalysis) (score : ℤ) :
    generate_recommendations length ca pa score =
      ((recommendationRules length ca pa).flatten ++
        (if score < 60 then generalTips else [])).take 8 ∧
    (generate_recommendations length ca pa score).length ≤ 8 ∧
    ((recommendationRules length ca pa).all fun r => r.length ≤ 1) = true := by
  refine ⟨?_, ?_, ?_⟩
  · simp [generate_recommendations, recommendationRules]
  · simp only [generate_recommendations]
    exact List.length_take_le 8 _
  · simp only [recommendationRules, List.all_cons, List.all_nil,
      Bool.and_eq_true, decide_eq_true_eq, and_true]
    refine ⟨?_, ?_, ?_, ?_, ?_, ?_, ?_, ?_, ?_, ?_, ?_⟩ <;>
      first
        | exact ite_rule_length_le_one _ _ _
            (ite_rule_length_le_one _ _ _ (by simp))
        | exact ite_rule_length_le_one _ _ _ (by simp)

/-- C9 counterexample: two calls of `analyze_password` on the same password
at different clock readings return different records (the
`analysis_timestamp` field differs), so the result is not a function of the
password alone. -/
theorem analyze_differs_across_calls :
    analyze_password "2025-01-01 00:00:00" "" ≠
      analyze_password "2025-01-02 00:00:00" "" := by
  simp [analyze_password, empty_analysis]

/-- C9 amended: both engines are pure given the clock reading threaded into
them — the analysis is independent of the clock except for its
`analysis_timestamp` field, and the wordlist is independent of the current
year whenever `include_years` is disabled (with it enabled it depends only
on the year, which `generate_wordlist` takes as an argument). -/
theorem pure_given_clock :
    (∀ t t' p, Except.map erase_timestamp (analyze_password t p) =
      Except.map erase_timestamp (analyze_password t' p)) ∧
    (∀ (y y' : ℤ) (inputs : List String) (il ic iv : Bool),
      generate_wordlist y inputs false il ic iv =
        generate_wordlist y' inputs false il ic iv) := by
  constructor
  · intro t t' p
    by_cases hp : p = ""
    · simp [analyze_password, hp, erase_timestamp, empty_analysis, Except.map]
    · simp only [analyze_password, if_neg hp]
      cases h : estimate_crack_time (calculate_entropy p) <;>
        simp [h, erase_timestamp, Except.map]
  · intro y y' inputs il ic iv
    simp [generate_wordlist, accumulated_wordlist]

/-- C5 counterexample: at entropy 2048 the source raises `OverflowError`
(`2.0 ** 2048` exceeds the largest double) instead of returning the bucket
the claim describes. -/
theorem crack_time_overflow_counterexample :
    estimate_crack_time 2048 ≠ .ok (claimed_crack_time 2048) := by
  have h : estimate_crack_time 2048 = .error "OverflowError" := by
    unfold estimate_crack_time
    rw [if_neg (by norm_num), if_pos (by norm_num)]
  simp [h]

/-- C5 amended: below the float-overflow threshold (entropy < 1024) the
estimated crack time is exactly the claimed bucketing of
`seconds = 2^entropy / (2 * 10^9)`: `Instantly` for nonpositive entropy,
then seconds / minutes / hours / days / months / years with truncated unit
counts, `Millions of years` above a million years. -/
theorem crack_time_bucketing (e : ℚ) (h : e < 1024) :
    estimate_crack_time e = .ok (claimed_crack_time e) := by
  unfold estimate_crack_time claimed_crack_time
  by_cases h0 : e ≤ 0
  · rw [if_pos h0, if_pos h0]
  · rw [if_neg h0, if_neg h0, if_neg (not_le.mpr h)]
    dsimp only
    split_ifs <;> rfl

theorem crack_time_bucketing_witness :
    estimate_crack_time (-1) = .ok (claimed_crack_time (-1)) :=
  crack_time_bucketing (-1) (by norm_num)

/-- C2: every generated wordlist consists of words passing the per-word
filter (length in `[2, 50]`, no leading/trailing whitespace, not all
whitespace), contains no duplicates, has at most `MAX_WORDLIST_SIZE`
elements, and is sorted ascending in the code-point lexicographic order. -/
theorem wordlist_invariants (cy : ℤ) (inputs : List String)
    (iy il ic iv : Bool) :
    ((generate_wordlist cy inputs iy il ic iv).all okWord) = true ∧
    (generate_wordlist cy inputs iy il ic iv).Nodup ∧
    (generate_wordlist cy inputs iy il ic iv).length ≤ MAX_WORDLIST_SIZE ∧
    (generate_wordlist cy inputs iy il ic iv).Sorted pyle := by
  unfold generate_wordlist
  by_cases h : clean_inputs inputs = []
  · simp [h, MAX_WORDLIST_SIZE]
  · rw [if_neg h]
    generalize accumulated_wordlist cy (clean_inputs inputs) iy il ic iv = l
    have hperm := List.perm_insertionSort pyle (filter_wordlist l)
    refine ⟨?_, ?_, ?_, List.sorted_insertionSort pyle _⟩
    · rw [List.all_eq_true]
      intro w hw
      have hw2 : w ∈ filter_wordlist l := hperm.mem_iff.mp hw
      unfold filter_wordlist at hw2
      have hw3 := List.mem_of_mem_take hw2
      rw [List.mem_dedup] at hw3
      exact List.of_mem_filter hw3
    · exact hperm.nodup_iff.mpr
        ((List.nodup_dedup _).sublist (List.take_sublist _ _))
    · calc (List.insertionSort pyle (filter_wordlist l)).length
          = (filter_wordlist l).length := hperm.length_eq
        _ ≤ MAX_WORDLIST_SIZE := List.length_take_le _ _

set_option maxRecDepth 100000 in
/-- C6 counterexample: with the current year 2025 the claim's year set
contains the 2-digit form of the next year, `"26"`, so `"cat26"` should be
generated from the seed `"cat"`; the source takes 2-digit forms only of the
current and previous year, so `"cat26"` is absent even though `"cat2026"`
(the full next year) is present. -/
theorem year_two_digit_next_missing :
    "cat2026" ∈ generate_wordlist 2025 ["cat"] true false false false ∧
    "cat26" ∉ generate_wordlist 2025 ["cat"] true false false false := by
  decide

/-- C6 amended: with `includeYears` enabled, for every cleaned seed `w` and
every year string `y` of the source's table — the current year, the previous
year, the next year, the 2-digit forms of the current and previous year
(not of the next year), and the fixed historical years — each of `w+y`,
`y+w`, `w_y`, `w-y` appears in the generated wordlist, provided it passes
the per-word filter and the deduplicated filtered collection does not exceed
the size cap (truncation could otherwise drop it). -/
theorem year_combinations_present (cy : ℤ) (inputs : List String)
    (il ic iv : Bool) (w y form : String)
    (hw : w ∈ clean_inputs inputs) (hy : y ∈ yearStrings cy)
    (hform : form ∈ [w ++ y, y ++ w, w ++ "_" ++ y, w ++ "-" ++ y])
    (hok : okWord form = true)
    (hsize : (((accumulated_wordlist cy (clean_inputs inputs) true il ic
        iv).filter okWord).dedup).length ≤ MAX_WORDLIST_SIZE) :
    form ∈ generate_wordlist cy inputs true il ic iv := by
  have hne : clean_inputs inputs ≠ [] := List.ne_nil_of_mem hw
  have hyc : form ∈ add_year_combinations cy (clean_inputs inputs) := by
    unfold add_year_combinations
    rw [List.mem_flatMap]
    exact ⟨w, hw, by rw [List.mem_flatMap]; exact ⟨y, hy, hform⟩⟩
  unfold generate_wordlist
  rw [if_neg hne, List.mem_insertionSort]
  unfold filter_wordlist
  rw [List.take_of_length_le hsize, List.mem_dedup, List.mem_filter]
  refine ⟨?_, hok⟩
  cases il <;> cases ic <;> cases iv <;>
    simp [accumulated_wordlist, List.mem_append, hyc]

set_option maxRecDepth 100000 in
theorem year_combinations_present_witness :
    "cat2024" ∈ generate_wordlist 2025 ["cat"] true false false false :=
  year_combinations_present 2025 ["cat"] false false false "cat" "2024"
    "cat2024" (by decide) (by decide) (by decide) (by decide) (by decide)

/-- The additive score is clamped to `[0, 100]` whatever the inputs. -/
theorem calculate_strength_score_range (p : String) (ca : CharAnalysis)
    (pa : PatternAnalysis) (e : ℚ) :
    0 ≤ calculate_strength_score p ca pa e ∧
      calculate_strength_score p ca pa e ≤ 100 := by
  simp only [calculate_strength_score]
  exact ⟨le_max_left _ _, max_le (by norm_num) (min_le_left _ _)⟩

/-- C1: every analysis that `analyze_password` returns carries a strength
score in `[0, 100]`: the additive score is rounded and clamped, and the
empty-password record scores 0. -/
theorem strength_score_in_range (now p : String) (a : Analysis)
    (h : analyze_password now p = .ok a) :
    0 ≤ a.strength_score ∧ a.strength_score ≤ 100 := by
  by_cases hp : p = ""
  · rw [hp] at h
    simp [analyze_password] at h
    rw [← h]
    simp [empty_analysis]
  · simp only [analyze_password, if_neg hp] at h
    cases hc : estimate_crack_time (calculate_entropy p) with
    | error e => rw [hc] at h; simp at h
    | ok ct =>
      rw [hc] at h
      simp only [Except.ok.injEq] at h
      rw [← h]
      exact calculate_strength_score_range p _ _ _

theorem strength_score_in_range_witness :
    0 ≤ (empty_analysis "2025-01-01 00:00:00").strength_score ∧
      (empty_analysis "2025-01-01 00:00:00").strength_score ≤ 100 :=
  strength_score_in_range "2025-01-01 00:00:00" ""
    (empty_analysis "2025-01-01 00:00:00") (by simp [analyze_password])

/-- A 230-character all-lowercase password. -/
def longA : String := String.mk (List.replicate 230 'a')

/-- Rounding to centesimals moves a value by at most `1/200`. -/
theorem round2_ge_of_ge (x : ℝ) (h : (1025 : ℝ) ≤ x) :
    (1024 : ℚ) ≤ round2 x := by
  unfold round2
  have h2 : |100 * x - (round (100 * x) : ℝ)| ≤ 1 / 2 := abs_sub_round _
  have h3 := (abs_le.mp h2).2
  have h4 : (102400 : ℝ) ≤ (round (100 * x) : ℝ) := by linarith
  have h5 : (102400 : ℤ) ≤ round (100 * x) := by exact_mod_cast h4
  rw [le_div_iff₀ (by norm_num : (0 : ℚ) < 100)]
  calc (1024 : ℚ) * 100 = ((102400 : ℤ) : ℚ) := by norm_num
    _ ≤ ((round (100 * x) : ℤ) : ℚ) := by exact_mod_cast h5

/-- `log2 26` is at least `4.7`, since `2^47 ≤ 26^10`. -/
theorem logb_two_26_ge : (47 / 10 : ℝ) ≤ Real.logb 2 26 := by
  rw [Real.logb, le_div_iff₀ (Real.log_pos (by norm_num))]
  have hpow : ((2 : ℝ) ^ (47 : ℕ)) ≤ (26 : ℝ) ^ (10 : ℕ) := by norm_num
  have hlog := (Real.log_le_log_iff (by positivity) (by positivity)).mpr hpow
  rw [Real.log_pow, Real.log_pow] at hlog
  push_cast at hlog
  linarith

set_option maxRecDepth 100000 in
/-- The entropy of 230 lowercase letters, `round(230 * log2 26, 2) ≈
1081.10`, is far beyond the float-overflow threshold 1024. -/
theorem entropy_longA_ge : (1024 : ℚ) ≤ calculate_entropy longA := by
  have hne : longA ≠ "" := by decide
  have hcs : charset_size longA = 26 := by decide
  have hlen : longA.length = 230 := by decide
  unfold calculate_entropy
  rw [if_neg hne, hcs, hlen, if_pos (by norm_num : 0 < 26)]
  apply round2_ge_of_ge
  have hlogb := logb_two_26_ge
  have h230 : ((230 : ℕ) : ℝ) = (230 : ℝ) := by norm_num
  have h26 : ((26 : ℕ) : ℝ) = (26 : ℝ) := by norm_num
  rw [h230, h26]
  nlinarith [logb_two_26_ge]

/-- Above the overflow threshold the crack-time computation raises. -/
theorem estimate_crack_time_overflow (e : ℚ) (h : (1024 : ℚ) ≤ e) :
    estimate_crack_time e = .error "OverflowError" := by
  unfold estimate_crack_time
  rw [if_neg (not_le.mpr (by linarith : (0 : ℚ) < e)), if_pos h]

/-- C3: `analyze_password` does not terminate normally on every string: on a
230-character password of `'a'`s the entropy is about 1081 bits, so
`2 ** entropy` in `_estimate_crack_time` overflows the double range and the
call raises `OverflowError` instead of returning an analysis. -/
theorem analyze_long_password_overflow (now : String) :
    analyze_password now longA = .error "OverflowError" := by
  have hne : longA ≠ "" := by decide
  have hcrack : estimate_crack_time (calculate_entropy longA) =
      .error "OverflowError" :=
    estimate_crack_time_overflow _ entropy_longA_ge
  simp only [analyze_password, if_neg hne, hcrack]

/-- Every label `_get_strength_label` can produce differs from `"Invalid"`. -/
theorem get_strength_label_ne_invalid (score : ℤ) :
    (get_strength_label score).1 ≠ "Invalid" := by
  unfold get_strength_label
  split_ifs <;> decide

/-- A zero charset means no character class test fired. -/
theorem charset_size_zero (p : String) (h : charset_size p = 0) :
    p.data.any isLowerAZ = false ∧ p.data.any isUpperAZ = false ∧
      p.data.any isDigit09 = false ∧ p.data.any isSpecialChar = false := by
  unfold charset_size at h
  split_ifs at h <;> simp_all

/-- Without any recognized class the entropy computation returns 0. -/
theorem entropy_zero_of_charset_zero (p : String) (h : charset_size p = 0) :
    calculate_entropy p = 0 := by
  unfold calculate_entropy
  by_cases hp : p = ""
  · rw [if_pos hp]
  · rw [if_neg hp, h, if_neg (by norm_num)]
    simp [round2]

/-- C10: a nonempty password is never labelled `"Invalid"` — whenever
`analyze_password` returns, the label comes from `_get_strength_label` —
and a password with no character of any recognized class is fully analyzed
rather than short-circuited: zero `character_types`, zero entropy, crack
time `"Instantly"`. -/
theorem nonempty_fully_analyzed (now p : String) (hp : p ≠ "") :
    Except.map Analysis.strength_label (analyze_password now p) ≠
      .ok "Invalid" ∧
    (charset_size p = 0 →
      Except.map (fun a => (a.character_analysis.map CharAnalysis.character_types,
          a.entropy, a.time_to_crack)) (analyze_password now p) =
        .ok (some 0, 0, "Instantly")) := by
  constructor
  · simp only [analyze_password, if_neg hp]
    cases hc : estimate_crack_time (calculate_entropy p) with
    | error e => simp [Except.map]
    | ok ct =>
      simp only [Except.map]
      intro hcontra
      simp only [Except.ok.injEq] at hcontra
      exact get_strength_label_ne_invalid _ hcontra
  · intro hcs
    have he : calculate_entropy p = 0 := entropy_zero_of_charset_zero p hcs
    have hcrack : estimate_crack_time (calculate_entropy p) =
        .ok "Instantly" := by
      rw [he]
      unfold estimate_crack_time
      rw [if_pos le_rfl]
    have hct : (analyze_characters p).character_types = 0 := by
      obtain ⟨h1, h2, h3, h4⟩ := charset_size_zero p hcs
      simp [analyze_characters, h1, h2, h3, h4]
    simp only [analyze_password, if_neg hp, hcrack]
    simp [Except.map, hct, he]

theorem nonempty_fully_analyzed_witness :
    Except.map Analysis.strength_label
      (analyze_password "2025-01-01 00:00:00" "__") ≠ .ok "Invalid" ∧
    Except.map (fun a => (a.character_analysis.map CharAnalysis.character_types,
        a.entropy, a.time_to_crack))
      (analyze_password "2025-01-01 00:00:00" "__") =
      .ok (some 0, 0, "Instantly") := by
  have h := nonempty_fully_analyzed "2025-01-01 00:00:00" "__" (by decide)
  exact ⟨h.1, h.2 (by decide)⟩
